import Mathlib

/-!
Shallow embedding of the myshoes MCP server tool handlers
(src/cmd/myshoes-mcp-server/main.go) together with the fake myshoes HTTP
server used by the tests shipped with the repository
(src/cmd/myshoes-mcp-server/main_test.go).

Pure data flows become Lean functions.  Each handler is parametrised by
the Resource Client (a record of functions, the injectable collaborator
the spec describes) and by the JSON marshaller, so that theorems can
quantify over every possible collaborator behaviour, including marshal
failures.  Besides the RPC result, the output of a handler records the list
of Resource Client calls it made and the warnings it logged, so that
claims about "no network call is attempted" and about logging are
statable.
-/

namespace MyshoesMCP

/-- Modelled from the spec: the fixed resource-type enumeration
(nano, micro, small, medium, large, xlarge, 2xlarge, 3xlarge, 4xlarge).
The Go type lives in the external myshoes library
(github.com/whywaita/myshoes), not under src/. -/
inductive ResourceType where
  | nano | micro | small | medium | large | xlarge
  | x2large | x3large | x4large
  deriving DecidableEq, Repr

/-- The nine string literals of the enumeration, as the spec lists them. -/
def resourceTypeLiterals : List String :=
  ["nano", "micro", "small", "medium", "large", "xlarge",
   "2xlarge", "3xlarge", "4xlarge"]

/-- The canonical string of an enumeration member (its JSON form). -/
def resourceTypeString : ResourceType → String
  | .nano => "nano"
  | .micro => "micro"
  | .small => "small"
  | .medium => "medium"
  | .large => "large"
  | .xlarge => "xlarge"
  | .x2large => "2xlarge"
  | .x3large => "3xlarge"
  | .x4large => "4xlarge"

/-- Modelled from the spec: the strict JSON decoder of the enumeration
(the handlers reach it through json.Unmarshal into param.ResourceType;
its code is in the external myshoes library, not under src/).  A string
outside the enumeration fails to decode. -/
def decodeResourceType (s : String) : Option ResourceType :=
  if s = "nano" then some .nano
  else if s = "micro" then some .micro
  else if s = "small" then some .small
  else if s = "medium" then some .medium
  else if s = "large" then some .large
  else if s = "xlarge" then some .xlarge
  else if s = "2xlarge" then some .x2large
  else if s = "3xlarge" then some .x3large
  else if s = "4xlarge" then some .x4large
  else none

/-- Modelled from the spec: the error text produced by the strict decoder
for a rejected string (wrapped by the handler via %w). -/
def rtErrText (s : String) : String :=
  "invalid resource type: " ++ s

/-- A character that the Go %q verb prints unchanged (we model the two
escapes relevant to the strings at hand: the quote and the backslash). -/
def PlainStr (s : String) : Prop :=
  ∀ c ∈ s.data, c ≠ '"' ∧ c ≠ '\\'

instance (s : String) : Decidable (PlainStr s) :=
  inferInstanceAs (Decidable (∀ c ∈ s.data, c ≠ '"' ∧ c ≠ '\\'))

/-- Escaping of quote and backslash, as the Go %q verb and JSON string encoding do. -/
def escapeChars : List Char → List Char
  | [] => []
  | c :: rest =>
    (if c = '"' then ['\\', '"']
     else if c = '\\' then ['\\', '\\'] else [c]) ++ escapeChars rest

/-- The Go %q verb applied to a string: surrounding quotes plus escaping
(restricted to the quote and backslash escapes; control characters do
not occur in the strings the claims are about). -/
def goQuote (s : String) : String :=
  "\"" ++ String.mk (escapeChars s.data) ++ "\""

/-- hay contains needle as a contiguous substring. -/
def ContainsStr (hay needle : String) : Prop :=
  ∃ pre post : List Char, hay.data = pre ++ needle.data ++ post

/-- Input of the create_target tool (Go struct CreateTargetInput in
src/cmd/myshoes-mcp-server/main.go; Go string fields, so an absent JSON
property decodes to ""). -/
structure CreateTargetInput where
  scope : String
  resourceType : String
  providerURL : String
  runnerUser : String
  deriving DecidableEq, Repr

/-- Input of the update_target tool (Go struct UpdateTargetInput). -/
structure UpdateTargetInput where
  targetID : String
  resourceType : String
  providerURL : String
  deriving DecidableEq, Repr

/-- Input of the get_target tool (Go struct GetTargetInput). -/
structure GetTargetInput where
  targetID : String
  deriving DecidableEq, Repr

/-- Input of the delete_target tool (Go struct DeleteTargetInput). -/
structure DeleteTargetInput where
  targetID : String
  deriving DecidableEq, Repr

/-- The raw create_target argument bundle as it arrives over the RPC
transport: each optional JSON property is either absent (none) or
present with a string value. -/
structure CreateToolArgs where
  scope : Option String
  resourceType : Option String
  providerURL : Option String
  runnerUser : Option String
  deriving DecidableEq, Repr

/-- JSON decoding of the argument bundle into the Go input struct:
encoding/json leaves an absent property at the zero value of the field, the
empty string. -/
def decodeCreateInput (a : CreateToolArgs) : CreateTargetInput :=
  { scope := a.scope.getD ""
    resourceType := a.resourceType.getD ""
    providerURL := a.providerURL.getD ""
    runnerUser := a.runnerUser.getD "" }

/-- The request parameters handed to the Resource Client
(web.TargetCreateParam of the external myshoes library; pointer fields
become Option, the zero value of the enum field becomes none). -/
structure TargetCreateParam where
  scope : String
  resourceType : Option ResourceType
  providerURL : Option String
  runnerUser : Option String
  deriving DecidableEq, Repr

/-- The Target resource returned by the remote API (web.UserTarget as the
tests in src exercise it; timestamps kept as their serialized strings). -/
structure UserTarget where
  uuid : String
  scope : String
  resourceType : String
  providerURL : String
  status : String
  createdAt : String
  updatedAt : String
  deriving DecidableEq, Repr

/-- One call made against the Resource Client, recorded for tracing. -/
inductive ClientCall where
  | list
  | get (id : String)
  | create (p : TargetCreateParam)
  | update (id : String) (p : TargetCreateParam)
  | delete (id : String)
  deriving DecidableEq, Repr

/-- The Resource Client contract (spec 4.3): one function per operation,
each returning a typed result or an error message. -/
structure Client where
  listTarget : Unit → Except String (List UserTarget)
  getTarget : String → Except String UserTarget
  createTarget : TargetCreateParam → Except String UserTarget
  updateTarget : String → TargetCreateParam → Except String UserTarget
  deleteTarget : String → Except String Unit

/-- The RPC result payload: the list of text contents. -/
structure CallToolResult where
  content : List String
  deriving DecidableEq, Repr

instance {ε α : Type} [DecidableEq ε] [DecidableEq α] :
    DecidableEq (Except ε α) := fun a b =>
  match a, b with
  | .error e, .error f =>
    if h : e = f then .isTrue (by rw [h]) else .isFalse (by simp [h])
  | .error _, .ok _ => .isFalse (by simp)
  | .ok _, .error _ => .isFalse (by simp)
  | .ok x, .ok y =>
    if h : x = y then .isTrue (by rw [h]) else .isFalse (by simp [h])

/-- What one handler invocation produced: the result or error returned to
the RPC caller, the Resource Client calls that were made, and the
(message, underlying error text) warnings logged on the process logger. -/
structure HandlerOutput where
  result : Except String CallToolResult
  calls : List ClientCall
  warnings : List (String × String)
  deriving DecidableEq, Repr

/-- The parameter record built by createTargetHandler once the
resource_type decoded: scope copied, optional strings forwarded as
pointers only when non-empty. -/
def createParam (input : CreateTargetInput) (rt : ResourceType) :
    TargetCreateParam :=
  { scope := input.scope
    resourceType := some rt
    providerURL := if input.providerURL = "" then none
                   else some input.providerURL
    runnerUser := if input.runnerUser = "" then none
                  else some input.runnerUser }

/-- createTargetHandler (main.go lines 234-269). -/
def createTargetHandler (client : Client)
    (marshalT : UserTarget → Except String String)
    (input : CreateTargetInput) : HandlerOutput :=
  match decodeResourceType input.resourceType with
  | none =>
    { result := .error ("invalid resource_type " ++ goQuote input.resourceType
        ++ ": " ++ rtErrText input.resourceType)
      calls := []
      warnings := [] }
  | some rt =>
    let param := createParam input rt
    match client.createTarget param with
    | .error e =>
      { result := .error ("failed to create target: " ++ e)
        calls := [.create param]
        warnings := [("failed to create target", e)] }
    | .ok target =>
      match marshalT target with
      | .error e =>
        { result := .error ("failed to marshal target: " ++ e)
          calls := [.create param]
          warnings := [("failed to marshal target", e)] }
      | .ok jb =>
        { result := .ok { content := [jb] }
          calls := [.create param]
          warnings := [] }

/-- The resource_type field of the parameter record built by
updateTargetHandler: left at its zero value when the input string is
empty, otherwise strictly decoded. -/
def updateRTField (s : String) : Except String (Option ResourceType) :=
  if s = "" then .ok none
  else
    match decodeResourceType s with
    | none => .error ("invalid resource_type " ++ goQuote s ++ ": "
        ++ rtErrText s)
    | some rt => .ok (some rt)

/-- The parameter record built by updateTargetHandler: scope and
runner_user are never set (they stay at the zero value). -/
def updateParam (input : UpdateTargetInput) (rt : Option ResourceType) :
    TargetCreateParam :=
  { scope := ""
    resourceType := rt
    providerURL := if input.providerURL = "" then none
                   else some input.providerURL
    runnerUser := none }

/-- updateTargetHandler (main.go lines 271-304). -/
def updateTargetHandler (client : Client)
    (marshalT : UserTarget → Except String String)
    (input : UpdateTargetInput) : HandlerOutput :=
  match updateRTField input.resourceType with
  | .error msg =>
    { result := .error msg, calls := [], warnings := [] }
  | .ok rt =>
    let param := updateParam input rt
    match client.updateTarget input.targetID param with
    | .error e =>
      { result := .error ("failed to update target: " ++ e)
        calls := [.update input.targetID param]
        warnings := [("failed to update target", e)] }
    | .ok target =>
      match marshalT target with
      | .error e =>
        { result := .error ("failed to marshal target: " ++ e)
          calls := [.update input.targetID param]
          warnings := [("failed to marshal target", e)] }
      | .ok jb =>
        { result := .ok { content := [jb] }
          calls := [.update input.targetID param]
          warnings := [] }

/-- getTargetHandler (main.go lines 212-232). -/
def getTargetHandler (client : Client)
    (marshalT : UserTarget → Except String String)
    (input : GetTargetInput) : HandlerOutput :=
  match client.getTarget input.targetID with
  | .error e =>
    { result := .error ("failed to get target: " ++ e)
      calls := [.get input.targetID]
      warnings := [("failed to get target", e)] }
  | .ok target =>
    match marshalT target with
    | .error e =>
      { result := .error ("failed to marshal target: " ++ e)
        calls := [.get input.targetID]
        warnings := [("failed to marshal target", e)] }
    | .ok jb =>
      { result := .ok { content := [jb] }
        calls := [.get input.targetID]
        warnings := [] }

/-- listTargetHandler (main.go lines 189-210). -/
def listTargetHandler (client : Client)
    (marshalL : List UserTarget → Except String String) : HandlerOutput :=
  match client.listTarget () with
  | .error e =>
    { result := .error ("failed to list targets: " ++ e)
      calls := [.list]
      warnings := [("failed to list targets", e)] }
  | .ok targets =>
    match marshalL targets with
    | .error e =>
      { result := .error ("failed to marshal targets: " ++ e)
        calls := [.list]
        warnings := [("failed to marshal targets", e)] }
    | .ok jb =>
      { result := .ok { content := [jb] }
        calls := [.list]
        warnings := [] }

/-- deleteTargetHandler (main.go lines 306-319). -/
def deleteTargetHandler (client : Client) (input : DeleteTargetInput) :
    HandlerOutput :=
  match client.deleteTarget input.targetID with
  | .error e =>
    { result := .error ("failed to delete target: " ++ e)
      calls := [.delete input.targetID]
      warnings := [("failed to delete target", e)] }
  | .ok _ =>
    { result := .ok { content := ["Successfully deleted target "
        ++ input.targetID] }
      calls := [.delete input.targetID]
      warnings := [] }

/-! ## The fake myshoes server of the repository tests

main_test.go stands up an httptest server; its handler logic is
translated below.  The wire marshaling between TargetCreateParam and the
JSON map the server decodes is work done by the external client; following the
spec, the enum zero value and a nil pointer reach the server as an
absent-or-empty value. -/

/-- The identifier of the one pre-existing target of the fake server
(main_test.go testTargetID; the random UUID drawn by the test becomes a fixed
string, no claim depends on its value). -/
def testTargetID : String := "11111111-2222-3333-4444-555555555555"

/-- The pre-existing target of the fake server (main_test.go testTarget). -/
def testTarget : UserTarget :=
  { uuid := testTargetID
    scope := "octocat/hello-world"
    resourceType := "nano"
    providerURL := "http://provider.example.com"
    status := "active"
    createdAt := "2025-01-01T00:00:00Z"
    updatedAt := "2025-01-01T00:00:00Z" }

/-- How the fake server treats of an optional string field of the decoded
JSON map: the value is used only when the property is present and
non-empty, otherwise the default stands (main_test.go, the
"if ok and s non-empty" checks). -/
def serverPickStr (o : Option String) (dflt : String) : String :=
  match o with
  | some s => if s = "" then dflt else s
  | none => dflt

/-- The fake server POST /target handler (create), parametrised by the
fresh UUID and the current time it would generate (main_test.go lines
103-153). -/
def testServerCreate (u now : String) (p : TargetCreateParam) :
    Except String UserTarget :=
  if p.scope = "" then .error "scope must be set"
  else .ok
    { uuid := u
      scope := p.scope
      resourceType := serverPickStr (p.resourceType.map resourceTypeString)
        "nano"
      providerURL := serverPickStr p.providerURL ""
      status := "active"
      createdAt := now
      updatedAt := now }

/-- The fake server POST /target/:id handler (update): the stored target
with only the supplied non-empty fields overwritten (main_test.go lines
59-85). -/
def testServerUpdate (id : String) (p : TargetCreateParam) :
    Except String UserTarget :=
  if id = testTargetID then
    .ok { testTarget with
      resourceType := serverPickStr (p.resourceType.map resourceTypeString)
        testTarget.resourceType
      providerURL := serverPickStr p.providerURL testTarget.providerURL }
  else .error "target not found"

/-- The fake server GET /target/:id handler (main_test.go lines 49-57). -/
def testServerGet (id : String) : Except String UserTarget :=
  if id = testTargetID then .ok testTarget else .error "target not found"

/-- The fake server DELETE /target/:id handler (main_test.go lines
87-94). -/
def testServerDelete (id : String) : Except String Unit :=
  if id = testTargetID then .ok () else .error "target not found"

/-- The fake server GET /target handler (list, main_test.go lines
106-109). -/
def testServerList : Except String (List UserTarget) := .ok [testTarget]

/-- The Resource Client wired to the fake server, as newTestServer builds
it (the HTTP round trip of the external myshoes client is modelled, per
the spec, as forwarding the request and returning the result of the server
or error). -/
def testClient (u now : String) : Client :=
  { listTarget := fun _ => testServerList
    getTarget := testServerGet
    createTarget := testServerCreate u now
    updateTarget := testServerUpdate
    deleteTarget := testServerDelete }

/-! ## JSON serialization of results

Modelled from the spec: json.Marshal of a web.UserTarget produces a flat
JSON object of string fields (UUID and timestamps serialize as strings),
in declaration order.  A tiny renderer and parser for such flat objects
make the round-trip claim statable. -/

/-- The chars of one JSON string literal: quotes around the escaped body. -/
def renderStrChars (s : String) : List Char :=
  '"' :: escapeChars s.data ++ ['"']

/-- The chars of the members of a flat JSON object, comma-separated. -/
def renderFieldsChars : List (String × String) → List Char
  | [] => []
  | [kv] => renderStrChars kv.1 ++ ':' :: renderStrChars kv.2
  | kv :: rest =>
    renderStrChars kv.1 ++ ':' :: renderStrChars kv.2
      ++ ',' :: renderFieldsChars rest

/-- A flat JSON object of string fields, rendered compactly. -/
def renderFlat (fields : List (String × String)) : String :=
  String.mk ('\x7b' :: renderFieldsChars fields ++ ['\x7d'])

/-- Modelled from the spec: the field list of the canonical serialization
of a Target (the JSON tags of web.UserTarget in the external myshoes
library). -/
def encodeUserTarget (t : UserTarget) : List (String × String) :=
  [("id", t.uuid), ("scope", t.scope), ("resource_type", t.resourceType),
   ("provider_url", t.providerURL), ("status", t.status),
   ("created_at", t.createdAt), ("updated_at", t.updatedAt)]

/-- json.Marshal of one target. -/
def marshalUserTarget (t : UserTarget) : String :=
  renderFlat (encodeUserTarget t)

/-- json.Marshal of a list of targets: a JSON array of the objects. -/
def marshalUserTargetList (ts : List UserTarget) : String :=
  "[" ++ String.intercalate "," (ts.map marshalUserTarget) ++ "]"

/-- The marshaller that always succeeds with the canonical serialization. -/
def goodMarshal : UserTarget → Except String String :=
  fun t => .ok (marshalUserTarget t)

/-- The list marshaller that always succeeds. -/
def goodMarshalList : List UserTarget → Except String String :=
  fun ts => .ok (marshalUserTargetList ts)

/-- Parse the body of a JSON string literal (after its opening quote):
the decoded characters and the rest of the input past the closing
quote. -/
def parseStringBody : List Char → Option (List Char × List Char)
  | [] => none
  | c :: rest =>
    if c = '"' then some ([], rest)
    else if c = '\\' then
      match rest with
      | [] => none
      | e :: rest2 =>
        match parseStringBody rest2 with
        | none => none
        | some p => some (e :: p.1, p.2)
    else
      match parseStringBody rest with
      | none => none
      | some p => some (c :: p.1, p.2)

/-- Parse the members of a flat JSON object of string fields, starting at
the opening quote of the first key, up to and past the closing brace.
Fuel bounds the number of members. -/
def parseFields : Nat → List Char → Option (List (List Char × List Char) × List Char)
  | 0, _ => none
  | fuel + 1, cs =>
    match cs with
    | [] => none
    | c :: cs1 =>
      if c = '"' then
        match parseStringBody cs1 with
        | none => none
        | some (k, cs2) =>
          match cs2 with
          | [] => none
          | [_] => none
          | c1 :: c2 :: cs3 =>
            if c1 = ':' then
              if c2 = '"' then
                match parseStringBody cs3 with
                | none => none
                | some (v, cs4) =>
                  match cs4 with
                  | [] => none
                  | c3 :: cs5 =>
                    if c3 = ',' then
                      match parseFields fuel cs5 with
                      | none => none
                      | some p => some ((k, v) :: p.1, p.2)
                    else if c3 = '\x7d' then some ([(k, v)], cs5)
                    else none
              else none
            else none
      else none

/-- Decode the characters of a flat JSON object with at least one string
field; none on any other shape. -/
def decodeFlatChars : List Char → Option (List (String × String))
  | [] => none
  | c :: cs =>
    if c = '\x7b' then
      match parseFields (cs.length + 1) cs with
      | none => none
      | some p =>
        if p.2 = [] then
          some (p.1.map fun kv => (String.mk kv.1, String.mk kv.2))
        else none
    else none

/-- Decode a flat JSON object of string fields from its rendered text. -/
def decodeFlatObj (s : String) : Option (List (String × String)) :=
  decodeFlatChars s.data

/-! ## Supporting lemmas -/

lemma decodeResourceType_isSome (s : String) :
    (decodeResourceType s).isSome ↔ s ∈ resourceTypeLiterals := by
  unfold decodeResourceType resourceTypeLiterals
  split_ifs <;> simp_all

lemma decodeResourceType_eq_none {s : String}
    (h : s ∉ resourceTypeLiterals) : decodeResourceType s = none := by
  rw [← Option.not_isSome_iff_eq_none, decodeResourceType_isSome]
  exact h

lemma escapeChars_plain : ∀ (cs : List Char),
    (∀ c ∈ cs, c ≠ '"' ∧ c ≠ '\\') → escapeChars cs = cs
  | [], _ => rfl
  | c :: cs, h => by
    have hc := h c (List.mem_cons_self c cs)
    simp [escapeChars, hc.1, hc.2,
      escapeChars_plain cs (fun x hx => h x (List.mem_cons_of_mem c hx))]

lemma goQuote_data_plain {s : String} (h : PlainStr s) :
    (goQuote s).data = '"' :: s.data ++ ['"'] := by
  simp [goQuote, String.data_append, escapeChars_plain s.data h]

lemma psb_append : ∀ (cs rest : List Char),
    (∀ c ∈ cs, c ≠ '"' ∧ c ≠ '\\') →
    parseStringBody (cs ++ '"' :: rest) = some (cs, rest)
  | [], _, _ => by rw [parseStringBody.eq_def]; simp
  | c :: cs, rest, h => by
    have hc := h c (List.mem_cons_self c cs)
    rw [List.cons_append, parseStringBody.eq_def]
    simp [hc.1, hc.2,
      psb_append cs rest (fun x hx => h x (List.mem_cons_of_mem c hx))]

/-- Every key and value of the field list is free of quote and backslash. -/
def PlainFields (fields : List (String × String)) : Prop :=
  ∀ kv ∈ fields, PlainStr kv.1 ∧ PlainStr kv.2

lemma renderStrChars_plain {s : String} (h : PlainStr s) :
    renderStrChars s = '"' :: s.data ++ ['"'] := by
  simp [renderStrChars, escapeChars_plain s.data h]

lemma parseFields_render : ∀ (fields : List (String × String))
    (rest : List Char) (fuel : Nat), fields ≠ [] → PlainFields fields →
    fields.length ≤ fuel →
    parseFields fuel (renderFieldsChars fields ++ '\x7d' :: rest) =
      some (fields.map (fun kv => (kv.1.data, kv.2.data)), rest)
  | [], _, _, hne, _, _ => absurd rfl hne
  | [kv], rest, fuel, _, hp, hfuel => by
    have hkv := hp kv (List.mem_cons_self kv [])
    match fuel, hfuel with
    | m + 1, _ =>
      rw [show renderFieldsChars [kv] ++ '\x7d' :: rest =
          '"' :: (kv.1.data ++ '"' :: (':' :: '"' ::
            (kv.2.data ++ '"' :: '\x7d' :: rest))) by
        simp [renderFieldsChars, renderStrChars_plain hkv.1,
          renderStrChars_plain hkv.2]]
      rw [parseFields.eq_def]
      simp [psb_append kv.1.data _ hkv.1, psb_append kv.2.data _ hkv.2]
  | kv :: kv2 :: fs, rest, fuel, _, hp, hfuel => by
    have hkv := hp kv (List.mem_cons_self kv (kv2 :: fs))
    match fuel, hfuel with
    | m + 1, hfuel =>
      rw [show renderFieldsChars (kv :: kv2 :: fs) ++ '\x7d' :: rest =
          '"' :: (kv.1.data ++ '"' :: (':' :: '"' ::
            (kv.2.data ++ '"' :: ',' ::
              (renderFieldsChars (kv2 :: fs) ++ '\x7d' :: rest)))) by
        simp [renderFieldsChars, renderStrChars_plain hkv.1,
          renderStrChars_plain hkv.2]]
      have hlen : (kv2 :: fs).length ≤ m := by
        simp only [List.length_cons] at hfuel ⊢
        omega
      have hrec := parseFields_render (kv2 :: fs) rest m (by simp)
        (fun x hx => hp x (List.mem_cons_of_mem kv hx)) hlen
      rw [parseFields.eq_def]
      simp [psb_append kv.1.data _ hkv.1, psb_append kv.2.data _ hkv.2,
        hrec]

lemma renderFieldsChars_length_ge : ∀ (fields : List (String × String)),
    fields.length ≤ (renderFieldsChars fields).length
  | [] => le_refl 0
  | [kv] => by
    simp [renderFieldsChars, renderStrChars]
  | kv :: kv2 :: fs => by
    have := renderFieldsChars_length_ge (kv2 :: fs)
    simp only [renderFieldsChars, renderStrChars, List.length_append,
      List.length_cons] at this ⊢
    omega

lemma decodeFlatObj_render (fields : List (String × String))
    (hne : fields ≠ []) (hp : PlainFields fields) :
    decodeFlatObj (renderFlat fields) = some fields := by
  have hfuel : fields.length ≤
      (renderFieldsChars fields ++ ['\x7d']).length + 1 := by
    have := renderFieldsChars_length_ge fields
    simp only [List.length_append, List.length_cons] at this ⊢
    omega
  have hparse := parseFields_render fields [] _ hne hp hfuel
  rw [show renderFieldsChars fields ++ '\x7d' :: [] =
      renderFieldsChars fields ++ ['\x7d'] from rfl] at hparse
  unfold decodeFlatObj renderFlat
  show decodeFlatChars ('\x7b' :: (renderFieldsChars fields
      ++ ['\x7d'])) = some fields
  rw [decodeFlatChars.eq_def]
  simp only [reduceIte, hparse]
  simp only [List.map_map]
  exact congrArg some (List.map_id fields)

lemma createTargetHandler_calls (client : Client)
    (m : UserTarget → Except String String) (input : CreateTargetInput)
    (rt : ResourceType) (h : decodeResourceType input.resourceType = some rt) :
    (createTargetHandler client m input).calls =
      [ClientCall.create (createParam input rt)] := by
  simp only [createTargetHandler, h]
  split <;> (try split) <;> rfl

lemma updateTargetHandler_calls (client : Client)
    (m : UserTarget → Except String String) (input : UpdateTargetInput)
    (rt : Option ResourceType) (h : updateRTField input.resourceType = .ok rt) :
    (updateTargetHandler client m input).calls =
      [ClientCall.update input.targetID (updateParam input rt)] := by
  simp only [updateTargetHandler, h]
  split <;> (try split) <;> rfl

lemma updateTargetHandler_calls_nil (client : Client)
    (m : UserTarget → Except String String) (input : UpdateTargetInput)
    (msg : String) (h : updateRTField input.resourceType = .error msg) :
    (updateTargetHandler client m input).calls = [] := by
  simp [updateTargetHandler, h]

/-! ## Claim theorems -/

/-- Claim C1 counterexample: a create_target call with empty scope and a
valid resource_type does reach the Resource Client — the handler makes a
CreateTarget call, so the failure is not a local validation before any
network call. -/
theorem create_empty_scope_reaches_client :
    (createTargetHandler (testClient "u" "n") goodMarshal
      { scope := "", resourceType := "nano", providerURL := "",
        runnerUser := "" }).calls ≠ [] := by decide

/-- Claim C1 (amended): the create handler performs no local validation of
scope.  For every create_target call whose scope is empty and whose
resource_type decodes against the enumeration, the CreateTarget call
reaches the Resource Client carrying the empty scope, and the failure
reported comes from the client (the test server rejects with "scope must be
set"), not a local validation error. -/
theorem create_empty_scope_forwarded (client : Client)
    (m : UserTarget → Except String String) (input : CreateTargetInput)
    (rt : ResourceType) (hrt : decodeResourceType input.resourceType = some rt)
    (hscope : input.scope = "") :
    (createTargetHandler client m input).calls =
      [ClientCall.create (createParam input rt)] ∧
    (createParam input rt).scope = "" ∧
    ∀ u n : String, (createTargetHandler (testClient u n) m input).result =
      .error "failed to create target: scope must be set" := by
  refine ⟨createTargetHandler_calls client m input rt hrt, hscope, ?_⟩
  intro u n
  simp [createTargetHandler, hrt, testClient, testServerCreate, createParam,
    hscope]

/-- Claim C1 amended witness. -/
theorem create_empty_scope_forwarded_witness :
    (createTargetHandler (testClient "u" "n") goodMarshal
      { scope := "", resourceType := "nano", providerURL := "",
        runnerUser := "" }).result =
      .error "failed to create target: scope must be set" :=
  (create_empty_scope_forwarded (testClient "u" "n") goodMarshal
    { scope := "", resourceType := "nano", providerURL := "",
      runnerUser := "" } .nano rfl rfl).2.2 "u" "n"

/-- Claim C2: for every create_target call, and every update_target call
with a non-empty resource_type, a resource_type outside the fixed
enumeration makes the handler return a validation error whose message
contains the rejected literal, with no Resource Client call attempted. -/
theorem invalid_resource_type_rejected (client : Client)
    (m : UserTarget → Except String String) (s : String)
    (hplain : PlainStr s) (hmem : s ∉ resourceTypeLiterals) :
    (∀ input : CreateTargetInput, input.resourceType = s →
      (createTargetHandler client m input).calls = [] ∧
      ∃ msg, (createTargetHandler client m input).result = .error msg ∧
        ContainsStr msg s) ∧
    (∀ input : UpdateTargetInput, input.resourceType = s → s ≠ "" →
      (updateTargetHandler client m input).calls = [] ∧
      ∃ msg, (updateTargetHandler client m input).result = .error msg ∧
        ContainsStr msg s) := by
  have hnone := decodeResourceType_eq_none hmem
  have hcontains : ContainsStr ("invalid resource_type " ++ goQuote s
      ++ ": " ++ rtErrText s) s := by
    refine ⟨("invalid resource_type ").data ++ ['"'],
      '"' :: (": ").data ++ (rtErrText s).data, ?_⟩
    simp [String.data_append, goQuote_data_plain hplain]
  constructor
  · intro input hin
    subst hin
    constructor
    · simp [createTargetHandler, hnone]
    · exact ⟨_, by simp [createTargetHandler, hnone], hcontains⟩
  · intro input hin hne
    subst hin
    have hfield : updateRTField input.resourceType =
        .error ("invalid resource_type " ++ goQuote input.resourceType
          ++ ": " ++ rtErrText input.resourceType) := by
      simp [updateRTField, hne, hnone]
    constructor
    · simp [updateTargetHandler, hfield]
    · exact ⟨_, by simp [updateTargetHandler, hfield], hcontains⟩

/-- Claim C2 witness. -/
theorem invalid_resource_type_rejected_witness :
    ((createTargetHandler (testClient "u" "n") goodMarshal
      { scope := "sc", resourceType := "huge", providerURL := "",
        runnerUser := "" }).calls = [] ∧
    ∃ msg, (createTargetHandler (testClient "u" "n") goodMarshal
      { scope := "sc", resourceType := "huge", providerURL := "",
        runnerUser := "" }).result = .error msg ∧ ContainsStr msg "huge") ∧
    ((updateTargetHandler (testClient "u" "n") goodMarshal
      { targetID := "id", resourceType := "huge",
        providerURL := "" }).calls = [] ∧
    ∃ msg, (updateTargetHandler (testClient "u" "n") goodMarshal
      { targetID := "id", resourceType := "huge",
        providerURL := "" }).result = .error msg ∧ ContainsStr msg "huge") := by
  have h := invalid_resource_type_rejected (testClient "u" "n") goodMarshal
    "huge" (by decide) (by decide)
  exact ⟨h.1 _ rfl, h.2 _ rfl (by decide)⟩

/-- Claim C3 counterexample: two create_target argument bundles that
differ only in provider_url being explicitly the empty string versus
omitted are distinct at the transport, yet the handler behaves
identically on them — the Resource Client receives the same parameters
and cannot distinguish the two cases. -/
theorem omitted_vs_empty_collapse :
    ({ scope := some "octocat/x", resourceType := some "nano",
       providerURL := some "", runnerUser := none } : CreateToolArgs) ≠
      { scope := some "octocat/x", resourceType := some "nano",
        providerURL := none, runnerUser := none } ∧
    createTargetHandler (testClient "u" "n") goodMarshal
      (decodeCreateInput
        { scope := some "octocat/x", resourceType := some "nano",
          providerURL := some "", runnerUser := none }) =
    createTargetHandler (testClient "u" "n") goodMarshal
      (decodeCreateInput
        { scope := some "octocat/x", resourceType := some "nano",
          providerURL := none, runnerUser := none }) :=
  ⟨by decide, rfl⟩

/-- Claim C3 (amended): the distinction between an omitted optional field
and one explicitly supplied as the empty string is NOT preserved: the Go
input struct decodes both to the empty string, and the handler forwards
both as an absent pointer, so the Resource Client sees identical
parameters in the two cases. -/
theorem optional_empty_treated_as_absent (client : Client)
    (m : UserTarget → Except String String) (a : CreateToolArgs) :
    createTargetHandler client m
        (decodeCreateInput { a with providerURL := some "" }) =
      createTargetHandler client m
        (decodeCreateInput { a with providerURL := none }) ∧
    createTargetHandler client m
        (decodeCreateInput { a with runnerUser := some "" }) =
      createTargetHandler client m
        (decodeCreateInput { a with runnerUser := none }) :=
  ⟨rfl, rfl⟩

/-- Claim C4: an update_target call with no optional fields supplied
invokes the Resource Client with empty/absent values only (empty scope,
zero resource type, nil provider URL, nil runner user), and against the
fake server of the repository the returned target is the stored one,
unchanged in every field. -/
theorem update_no_fields_preserves_target (client : Client)
    (m : UserTarget → Except String String) (id : String) :
    (updateTargetHandler client m
      { targetID := id, resourceType := "", providerURL := "" }).calls =
      [ClientCall.update id
        { scope := "", resourceType := none, providerURL := none,
          runnerUser := none }] ∧
    ∀ u n : String, (updateTargetHandler (testClient u n) goodMarshal
      { targetID := testTargetID, resourceType := "",
        providerURL := "" }).result =
      .ok { content := [marshalUserTarget testTarget] } := by
  constructor
  · exact updateTargetHandler_calls client m
      { targetID := id, resourceType := "", providerURL := "" } none rfl
  · intro u n
    rfl

/-- Claim C5 counterexample: a validation failure (invalid resource_type
on create_target) is returned to the caller with no warning recorded on
the process logger, so not every failure is logged. -/
theorem validation_failure_not_logged :
    (createTargetHandler (testClient "u" "n") goodMarshal
      { scope := "sc", resourceType := "bogus", providerURL := "",
        runnerUser := "" }).warnings = [] ∧
    ∃ msg, (createTargetHandler (testClient "u" "n") goodMarshal
      { scope := "sc", resourceType := "bogus", providerURL := "",
        runnerUser := "" }).result = .error msg :=
  ⟨rfl, _, rfl⟩

/-- Claim C5 (amended): every Resource Client failure and every marshal
failure, in each of the five handlers, logs exactly one warning carrying
the underlying error text; a validation failure (invalid resource_type
in create_target or update_target) is returned to the caller without
any warning being logged. -/
theorem client_and_marshal_failures_logged (client : Client)
    (mT : UserTarget → Except String String)
    (mL : List UserTarget → Except String String) :
    (∀ e, client.listTarget () = .error e →
      (listTargetHandler client mL).warnings =
        [("failed to list targets", e)]) ∧
    (∀ ts e, client.listTarget () = .ok ts → mL ts = .error e →
      (listTargetHandler client mL).warnings =
        [("failed to marshal targets", e)]) ∧
    (∀ id e, client.getTarget id = .error e →
      (getTargetHandler client mT { targetID := id }).warnings =
        [("failed to get target", e)]) ∧
    (∀ id t e, client.getTarget id = .ok t → mT t = .error e →
      (getTargetHandler client mT { targetID := id }).warnings =
        [("failed to marshal target", e)]) ∧
    (∀ input rt e, decodeResourceType input.resourceType = some rt →
      client.createTarget (createParam input rt) = .error e →
      (createTargetHandler client mT input).warnings =
        [("failed to create target", e)]) ∧
    (∀ input rt t e, decodeResourceType input.resourceType = some rt →
      client.createTarget (createParam input rt) = .ok t →
      mT t = .error e →
      (createTargetHandler client mT input).warnings =
        [("failed to marshal target", e)]) ∧
    (∀ input : CreateTargetInput,
      decodeResourceType input.resourceType = none →
      (createTargetHandler client mT input).warnings = []) ∧
    (∀ input rt e, updateRTField input.resourceType = .ok rt →
      client.updateTarget input.targetID (updateParam input rt) = .error e →
      (updateTargetHandler client mT input).warnings =
        [("failed to update target", e)]) ∧
    (∀ input rt t e, updateRTField input.resourceType = .ok rt →
      client.updateTarget input.targetID (updateParam input rt) = .ok t →
      mT t = .error e →
      (updateTargetHandler client mT input).warnings =
        [("failed to marshal target", e)]) ∧
    (∀ (input : UpdateTargetInput) msg,
      updateRTField input.resourceType = .error msg →
      (updateTargetHandler client mT input).warnings = []) ∧
    (∀ id e, client.deleteTarget id = .error e →
      (deleteTargetHandler client { targetID := id }).warnings =
        [("failed to delete target", e)]) := by
  refine ⟨?_, ?_, ?_, ?_, ?_, ?_, ?_, ?_, ?_, ?_, ?_⟩
  · intro e h; simp [listTargetHandler, h]
  · intro ts e h1 h2; simp [listTargetHandler, h1, h2]
  · intro id e h; simp [getTargetHandler, h]
  · intro id t e h1 h2; simp [getTargetHandler, h1, h2]
  · intro input rt e h1 h2; simp [createTargetHandler, h1, h2]
  · intro input rt t e h1 h2 h3; simp [createTargetHandler, h1, h2, h3]
  · intro input h; simp [createTargetHandler, h]
  · intro input rt e h1 h2; simp [updateTargetHandler, h1, h2]
  · intro input rt t e h1 h2 h3; simp [updateTargetHandler, h1, h2, h3]
  · intro input msg h; simp [updateTargetHandler, h]
  · intro id e h; simp [deleteTargetHandler, h]

/-- Claim C5 amended witness. -/
theorem client_and_marshal_failures_logged_witness :
    (getTargetHandler (testClient "u" "n") goodMarshal
      { targetID := "zzz" }).warnings =
      [("failed to get target", "target not found")] ∧
    (updateTargetHandler (testClient "u" "n") goodMarshal
      { targetID := "zzz", resourceType := "bogus",
        providerURL := "" }).warnings = [] := by
  have h := client_and_marshal_failures_logged (testClient "u" "n")
    goodMarshal goodMarshalList
  exact ⟨h.2.2.1 "zzz" "target not found" (by decide),
    h.2.2.2.2.2.2.2.2.2.1
      { targetID := "zzz", resourceType := "bogus", providerURL := "" }
      ("invalid resource_type " ++ goQuote "bogus" ++ ": "
        ++ rtErrText "bogus") (by decide)⟩

/-- Claim C6: in each of the five handlers every failure — validation,
client-reported, or serialization of an otherwise-successful fetch — is
surfaced to the RPC caller as a failed call whose message wraps the
underlying cause, and a success is returned exactly when every stage
succeeded, carrying the serialized payload (never an empty success). -/
theorem all_failures_surfaced (client : Client)
    (mT : UserTarget → Except String String)
    (mL : List UserTarget → Except String String) :
    (∀ e, client.listTarget () = .error e →
      (listTargetHandler client mL).result =
        .error ("failed to list targets: " ++ e)) ∧
    (∀ ts e, client.listTarget () = .ok ts → mL ts = .error e →
      (listTargetHandler client mL).result =
        .error ("failed to marshal targets: " ++ e)) ∧
    (∀ ts jb, client.listTarget () = .ok ts → mL ts = .ok jb →
      (listTargetHandler client mL).result = .ok { content := [jb] }) ∧
    (∀ id e, client.getTarget id = .error e →
      (getTargetHandler client mT { targetID := id }).result =
        .error ("failed to get target: " ++ e)) ∧
    (∀ id t e, client.getTarget id = .ok t → mT t = .error e →
      (getTargetHandler client mT { targetID := id }).result =
        .error ("failed to marshal target: " ++ e)) ∧
    (∀ id t jb, client.getTarget id = .ok t → mT t = .ok jb →
      (getTargetHandler client mT { targetID := id }).result =
        .ok { content := [jb] }) ∧
    (∀ input : CreateTargetInput,
      decodeResourceType input.resourceType = none →
      (createTargetHandler client mT input).result =
        .error ("invalid resource_type " ++ goQuote input.resourceType
          ++ ": " ++ rtErrText input.resourceType)) ∧
    (∀ input rt e, decodeResourceType input.resourceType = some rt →
      client.createTarget (createParam input rt) = .error e →
      (createTargetHandler client mT input).result =
        .error ("failed to create target: " ++ e)) ∧
    (∀ input rt t e, decodeResourceType input.resourceType = some rt →
      client.createTarget (createParam input rt) = .ok t →
      mT t = .error e →
      (createTargetHandler client mT input).result =
        .error ("failed to marshal target: " ++ e)) ∧
    (∀ input rt t jb, decodeResourceType input.resourceType = some rt →
      client.createTarget (createParam input rt) = .ok t → mT t = .ok jb →
      (createTargetHandler client mT input).result =
        .ok { content := [jb] }) ∧
    (∀ (input : UpdateTargetInput) msg,
      updateRTField input.resourceType = .error msg →
      (updateTargetHandler client mT input).result = .error msg) ∧
    (∀ input rt e, updateRTField input.resourceType = .ok rt →
      client.updateTarget input.targetID (updateParam input rt) = .error e →
      (updateTargetHandler client mT input).result =
        .error ("failed to update target: " ++ e)) ∧
    (∀ input rt t e, updateRTField input.resourceType = .ok rt →
      client.updateTarget input.targetID (updateParam input rt) = .ok t →
      mT t = .error e →
      (updateTargetHandler client mT input).result =
        .error ("failed to marshal target: " ++ e)) ∧
    (∀ input rt t jb, updateRTField input.resourceType = .ok rt →
      client.updateTarget input.targetID (updateParam input rt) = .ok t →
      mT t = .ok jb →
      (updateTargetHandler client mT input).result =
        .ok { content := [jb] }) ∧
    (∀ id e, client.deleteTarget id = .error e →
      (deleteTargetHandler client { targetID := id }).result =
        .error ("failed to delete target: " ++ e)) := by
  refine ⟨?_, ?_, ?_, ?_, ?_, ?_, ?_, ?_, ?_, ?_, ?_, ?_, ?_, ?_, ?_⟩
  · intro e h; simp [listTargetHandler, h]
  · intro ts e h1 h2; simp [listTargetHandler, h1, h2]
  · intro ts jb h1 h2; simp [listTargetHandler, h1, h2]
  · intro id e h; simp [getTargetHandler, h]
  · intro id t e h1 h2; simp [getTargetHandler, h1, h2]
  · intro id t jb h1 h2; simp [getTargetHandler, h1, h2]
  · intro input h; simp [createTargetHandler, h]
  · intro input rt e h1 h2; simp [createTargetHandler, h1, h2]
  · intro input rt t e h1 h2 h3; simp [createTargetHandler, h1, h2, h3]
  · intro input rt t jb h1 h2 h3; simp [createTargetHandler, h1, h2, h3]
  · intro input msg h; simp [updateTargetHandler, h]
  · intro input rt e h1 h2; simp [updateTargetHandler, h1, h2]
  · intro input rt t e h1 h2 h3; simp [updateTargetHandler, h1, h2, h3]
  · intro input rt t jb h1 h2 h3; simp [updateTargetHandler, h1, h2, h3]
  · intro id e h; simp [deleteTargetHandler, h]

/-- Claim C6 witness. -/
theorem all_failures_surfaced_witness :
    (getTargetHandler (testClient "u" "n") goodMarshal
      { targetID := "zzz" }).result =
      .error ("failed to get target: " ++ "target not found") ∧
    (listTargetHandler (testClient "u" "n") goodMarshalList).result =
      .ok { content := [marshalUserTargetList [testTarget]] } := by
  have h := all_failures_surfaced (testClient "u" "n") goodMarshal
    goodMarshalList
  exact ⟨h.2.2.2.1 "zzz" "target not found" (by decide),
    h.2.2.1 [testTarget] (marshalUserTargetList [testTarget])
      (by decide) rfl⟩

/-- Claim C7: a delete_target call that succeeds returns the
human-readable confirmation "Successfully deleted target " followed by
the exact identifier the caller supplied — the identifier occurs in the
payload verbatim, and the payload is not a serialized JSON object. -/
theorem delete_success_message_names_id (client : Client)
    (input : DeleteTargetInput)
    (h : client.deleteTarget input.targetID = .ok ()) :
    (deleteTargetHandler client input).result =
      .ok { content := ["Successfully deleted target "
        ++ input.targetID] } ∧
    ContainsStr ("Successfully deleted target " ++ input.targetID)
      input.targetID ∧
    decodeFlatObj ("Successfully deleted target " ++ input.targetID) =
      none := by
  refine ⟨by simp [deleteTargetHandler, h], ?_, ?_⟩
  · exact ⟨("Successfully deleted target ").data, [],
      by simp [String.data_append]⟩
  · have hdata : ("Successfully deleted target "
        ++ input.targetID).data =
        'S' :: (("uccessfully deleted target ").data
          ++ input.targetID.data) := by
      rw [String.data_append]
      rfl
    unfold decodeFlatObj
    rw [hdata, decodeFlatChars.eq_def]
    simp

/-- Claim C7 witness. -/
theorem delete_success_message_names_id_witness :
    (deleteTargetHandler (testClient "u" "n")
      { targetID := testTargetID }).result =
      .ok { content := ["Successfully deleted target "
        ++ testTargetID] } ∧
    ContainsStr ("Successfully deleted target " ++ testTargetID)
      testTargetID ∧
    decodeFlatObj ("Successfully deleted target " ++ testTargetID) =
      none :=
  delete_success_message_names_id (testClient "u" "n")
    { targetID := testTargetID } (by decide)

/-- Claim C9: every parameter record an update_target call passes to the
Resource Client operation UpdateTarget has an empty scope and an absent runner
user — an update through this layer can never set or change the
scope or runner user, whatever the input. -/
theorem update_never_sets_scope_or_runner_user (client : Client)
    (m : UserTarget → Except String String) (input : UpdateTargetInput)
    (call : ClientCall)
    (hmem : call ∈ (updateTargetHandler client m input).calls) :
    ∃ p : TargetCreateParam, call = ClientCall.update input.targetID p ∧
      p.scope = "" ∧ p.runnerUser = none := by
  rcases hfield : updateRTField input.resourceType with msg | rt
  · rw [updateTargetHandler_calls_nil client m input msg hfield] at hmem
    exact absurd hmem (List.not_mem_nil call)
  · rw [updateTargetHandler_calls client m input rt hfield] at hmem
    rcases List.mem_singleton.mp hmem with rfl
    exact ⟨updateParam input rt, rfl, rfl, rfl⟩

/-- Claim C9 witness. -/
theorem update_never_sets_scope_or_runner_user_witness :
    ∃ p : TargetCreateParam,
      ClientCall.update "tid"
          { scope := "", resourceType := none, providerURL := none,
            runnerUser := none } =
        ClientCall.update "tid" p ∧ p.scope = "" ∧ p.runnerUser = none :=
  update_never_sets_scope_or_runner_user (testClient "u" "n") goodMarshal
    { targetID := "tid", resourceType := "", providerURL := "" }
    (ClientCall.update "tid"
      { scope := "", resourceType := none, providerURL := none,
        runnerUser := none })
    (by decide)

/-- Claim C10: create_target has no absent/default path for
resource_type: the supplied string, the empty string included, always
goes through the strict enumeration decoder, so a create with an empty
resource_type fails with a validation error before any Resource Client
call — while update_target with an empty resource_type skips the decoder
and its UpdateTarget call does reach the Resource Client. -/
theorem create_empty_resource_type_rejected (client : Client)
    (m : UserTarget → Except String String) (input : CreateTargetInput)
    (h : input.resourceType = "") :
    ((createTargetHandler client m input).calls = [] ∧
     ∃ msg, (createTargetHandler client m input).result = .error msg) ∧
    ∀ input2 : UpdateTargetInput, input2.resourceType = "" →
      (updateTargetHandler client m input2).calls =
        [ClientCall.update input2.targetID (updateParam input2 none)] := by
  have hnone : decodeResourceType input.resourceType = none := by
    rw [h]; rfl
  refine ⟨⟨by simp [createTargetHandler, hnone], ?_⟩, ?_⟩
  · exact ⟨"invalid resource_type " ++ goQuote input.resourceType
      ++ ": " ++ rtErrText input.resourceType,
      by simp [createTargetHandler, hnone]⟩
  · intro input2 h2
    exact updateTargetHandler_calls client m input2 none
      (by simp [updateRTField, h2])

/-- Claim C10 witness. -/
theorem create_empty_resource_type_rejected_witness :
    (((createTargetHandler (testClient "u" "n") goodMarshal
      { scope := "octocat/x", resourceType := "", providerURL := "",
        runnerUser := "" }).calls = [] ∧
    ∃ msg, (createTargetHandler (testClient "u" "n") goodMarshal
      { scope := "octocat/x", resourceType := "", providerURL := "",
        runnerUser := "" }).result = .error msg)) ∧
    (updateTargetHandler (testClient "u" "n") goodMarshal
      { targetID := "tid", resourceType := "", providerURL := "" }).calls =
      [ClientCall.update "tid"
        { scope := "", resourceType := none, providerURL := none,
          runnerUser := none }] := by
  have h := create_empty_resource_type_rejected (testClient "u" "n")
    goodMarshal
    { scope := "octocat/x", resourceType := "", providerURL := "",
      runnerUser := "" } rfl
  exact ⟨h.1, h.2
    { targetID := "tid", resourceType := "", providerURL := "" } rfl⟩

/-- The target the fake server creates for scope "octocat/new-repo" and
resource_type "small", given the fresh UUID and timestamp it draws. -/
def octoTarget (u n : String) : UserTarget :=
  { uuid := u
    scope := "octocat/new-repo"
    resourceType := "small"
    providerURL := ""
    status := "active"
    createdAt := n
    updatedAt := n }

/-- Claim C8: a create_target call with scope "octocat/new-repo" and
resource_type "small" succeeds against the fake server of the repository, and
its serialized payload decodes to an object whose scope equals
"octocat/new-repo" and whose resource_type equals "small". -/
theorem create_roundtrip_octocat (u n : String)
    (hu : PlainStr u) (hn : PlainStr n) :
    (createTargetHandler (testClient u n) goodMarshal
      { scope := "octocat/new-repo", resourceType := "small",
        providerURL := "", runnerUser := "" }).result =
      .ok { content := [marshalUserTarget (octoTarget u n)] } ∧
    ∃ fs, decodeFlatObj (marshalUserTarget (octoTarget u n)) = some fs ∧
      fs.lookup "scope" = some "octocat/new-repo" ∧
      fs.lookup "resource_type" = some "small" := by
  refine ⟨rfl, encodeUserTarget (octoTarget u n), ?_, ?_, ?_⟩
  · have hp : PlainFields (encodeUserTarget (octoTarget u n)) := by
      intro kv hkv
      simp only [encodeUserTarget, octoTarget, List.mem_cons,
        List.not_mem_nil, or_false] at hkv
      rcases hkv with rfl | rfl | rfl | rfl | rfl | rfl | rfl
      · exact ⟨show PlainStr "id" by decide, hu⟩
      · exact ⟨by decide, by decide⟩
      · exact ⟨by decide, by decide⟩
      · exact ⟨by decide, by decide⟩
      · exact ⟨by decide, by decide⟩
      · exact ⟨show PlainStr "created_at" by decide, hn⟩
      · exact ⟨show PlainStr "updated_at" by decide, hn⟩
    exact decodeFlatObj_render (encodeUserTarget (octoTarget u n))
      (by simp [encodeUserTarget]) hp
  · simp [encodeUserTarget, octoTarget, List.lookup]
  · simp [encodeUserTarget, octoTarget, List.lookup]

/-- Claim C8 witness. -/
theorem create_roundtrip_octocat_witness :
    (createTargetHandler (testClient "uuid-1" "2025-02-02T00:00:00Z")
      goodMarshal
      { scope := "octocat/new-repo", resourceType := "small",
        providerURL := "", runnerUser := "" }).result =
      .ok { content := [marshalUserTarget
        (octoTarget "uuid-1" "2025-02-02T00:00:00Z")] } ∧
    ∃ fs, decodeFlatObj (marshalUserTarget
        (octoTarget "uuid-1" "2025-02-02T00:00:00Z")) = some fs ∧
      fs.lookup "scope" = some "octocat/new-repo" ∧
      fs.lookup "resource_type" = some "small" :=
  create_roundtrip_octocat "uuid-1" "2025-02-02T00:00:00Z"
    (by decide) (by decide)

end MyshoesMCP
